import Mathlib

/-!
Shallow embedding of the `EcgQc` class from `ecg_qc/ecg_qc.py`.

The class holds three fields set in `__init__` (`model`, loaded once with
joblib; `sampling_frequency`; `normalized`) and exposes three methods:
`compute_sqi_scores`, `predict_quality` and `get_signal_quality`.

The six SQI indicator functions (`qsqi`, `csqi`, `ssqi`, `ksqi`, `psqi`,
`bassqi`) are imported from `ecg_qc.sqi_computing.*`, which is not part of
the sources under verification; they appear here as an abstract bundle of
total real-valued functions (per the spec, degenerate inputs yield sentinel
scores, never exceptions).  The classifier artifact is likewise external:
it is modelled from the spec as an opaque `predict` capability mapping one
feature matrix to one integer label.

Methods are also given in an explicit-state form (suffix `M`) that threads
the evaluator value and a load-tracking environment through each call; this
is the direct translation of Python methods that read `self` but contain no
field assignment and no artifact load in their bodies.
-/

namespace EcgQcModel

/-- An ECG signal segment: the real-valued samples of the Python list or
numpy array passed to the methods. -/
abbrev Signal := List ℝ

/-- Modelled from the spec: the pre-trained classifier artifact is external
to the sources (a joblib file under `ml/models`); the core consumes it only
through a predict capability mapping one feature matrix to one integer
label. -/
structure Model where
  predict : List (List ℝ) → Int

/-- Failure of `joblib.load` in `__init__`: the artifact cannot be read or
deserialized. -/
inductive ClassifierLoadError
  | loadFailed
deriving DecidableEq

/-- A Python dynamic-attribute failure, as raised when `.reshape` is looked
up on a plain list. -/
inductive PyError
  | attributeError
deriving DecidableEq

/-- The dynamic type of the `ecg_signal` argument: a plain Python list
(which has no `reshape` attribute) or a numpy array (which has one).  Both
carry the same real-valued sample contents. -/
inductive PyObj
  | pylist (samples : List ℝ)
  | ndarray (samples : List ℝ)

/-- The sample contents of either dynamic form. -/
def PyObj.samples : PyObj → List ℝ
  | PyObj.pylist l => l
  | PyObj.ndarray l => l

/-- Environment for artifact loading: the artifact the path resolves to
(or its load failure) and a counter of how many loads have been performed. -/
structure LoadEnv where
  artifact : Except ClassifierLoadError Model
  loadCalls : Nat

/-- One call of `joblib.load`: yields the artifact (or its load error) and
bumps the load counter. -/
def loadArtifact (env : LoadEnv) : Except ClassifierLoadError Model × LoadEnv :=
  (env.artifact, { env with loadCalls := env.loadCalls + 1 })

/-- The fields of an `EcgQc` instance, exactly the attributes `__init__`
assigns: `self.model`, `self.sampling_frequency`, `self.normalized`. -/
structure EcgQc where
  model : Model
  sampling_frequency : Nat
  normalized : Bool

/-- The constructor `EcgQc.__init__`: it performs exactly one
`load(model)` call; if the load fails the exception propagates and no
instance is produced, otherwise the three fields are set. -/
def EcgQc.init (env : LoadEnv) (sampling_frequency : Nat) (normalized : Bool) :
    Except ClassifierLoadError EcgQc × LoadEnv :=
  ((loadArtifact env).1.map (fun m => EcgQc.mk m sampling_frequency normalized),
    (loadArtifact env).2)

/-- The six SQI indicator functions imported from `ecg_qc.sqi_computing`.
Their sources are outside the verified tree, so they are abstract here:
every theorem below holds for an arbitrary bundle.  Per the spec they are
total (degenerate inputs map to sentinel scores, never exceptions). -/
structure SqiFns where
  qsqi : Signal → Nat → ℝ
  csqi : Signal → Nat → ℝ
  ssqi : Signal → ℝ
  ksqi : Signal → ℝ
  psqi : Signal → Nat → ℝ
  bassqi : Signal → Nat → ℝ

/-- Sample mean of a segment, as numpy computes it (sum over length). -/
noncomputable def mean (l : Signal) : ℝ :=
  l.sum / (l.length : ℝ)

/-- Population variance of a segment (ddof = 0), the variance used by
sklearn's StandardScaler. -/
noncomputable def pvariance (l : Signal) : ℝ :=
  (l.map (fun x => (x - mean l) ^ 2)).sum / (l.length : ℝ)

/-- The z-score transform performed by
`StandardScaler().fit_transform(x.reshape(-1, 1)).reshape(1, -1)[0]`:
subtract the mean and divide by the standard deviation; sklearn replaces a
zero scale by 1, so a constant segment maps to all zeros without error. -/
noncomputable def standardScale (l : Signal) : Signal :=
  l.map (fun x =>
    (x - mean l) / (if pvariance l = 0 then 1 else Real.sqrt (pvariance l)))

/-- The segment actually handed to the six indicator functions: the
z-scored copy when `self.normalized` holds, the raw input otherwise. -/
noncomputable def normInput (self : EcgQc) (ecg_signal : Signal) : Signal :=
  if self.normalized then standardScale ecg_signal else ecg_signal

/-- `EcgQc.compute_sqi_scores`: optionally rebinds the local to the
z-scored copy, computes the six indicator values, and assembles them into
a singleton outer list holding the six scores in the fixed order
q, c, s, k, p, bas. -/
noncomputable def compute_sqi_scores (F : SqiFns) (self : EcgQc)
    (ecg_signal : Signal) : List (List ℝ) :=
  let sig := if self.normalized then standardScale ecg_signal else ecg_signal
  let q_sqi_score := F.qsqi sig self.sampling_frequency
  let c_sqi_score := F.csqi sig self.sampling_frequency
  let s_sqi_score := F.ssqi sig
  let k_sqi_score := F.ksqi sig
  let p_sqi_score := F.psqi sig self.sampling_frequency
  let bas_sqi_score := F.bassqi sig self.sampling_frequency
  [[q_sqi_score, c_sqi_score, s_sqi_score,
    k_sqi_score, p_sqi_score, bas_sqi_score]]

/-- `EcgQc.predict_quality`: `np.array` on a rectangular nested list is a
content-identity, and `int(...)` of the integer label returned by the
spec-modelled classifier is the identity, so the method is exactly the
classifier's prediction on the score matrix. -/
def predict_quality (self : EcgQc) (sqi_scores : List (List ℝ)) : Int :=
  self.model.predict sqi_scores

/-- `EcgQc.get_signal_quality`: computes the scores, predicts from them,
returns the prediction. -/
noncomputable def get_signal_quality (F : SqiFns) (self : EcgQc)
    (ecg_signal : Signal) : Int :=
  let sqi_scores := compute_sqi_scores F self ecg_signal
  let quality_predicted := predict_quality self sqi_scores
  quality_predicted

/-- Explicit-state form of `compute_sqi_scores`: the method body reads
`self` and calls no loader, so the translated transformer returns the
evaluator and the load environment unchanged. -/
noncomputable def compute_sqi_scoresM (F : SqiFns) (self : EcgQc)
    (ecg_signal : Signal) (env : LoadEnv) :
    List (List ℝ) × EcgQc × LoadEnv :=
  (compute_sqi_scores F self ecg_signal, self, env)

/-- Explicit-state form of `predict_quality`: no field assignment and no
artifact load occur in the body. -/
def predict_qualityM (self : EcgQc) (sqi_scores : List (List ℝ))
    (env : LoadEnv) : Int × EcgQc × LoadEnv :=
  (predict_quality self sqi_scores, self, env)

/-- Explicit-state form of `get_signal_quality`: no field assignment and no
artifact load occur in the body. -/
noncomputable def get_signal_qualityM (F : SqiFns) (self : EcgQc)
    (ecg_signal : Signal) (env : LoadEnv) : Int × EcgQc × LoadEnv :=
  (get_signal_quality F self ecg_signal, self, env)

/-- `compute_sqi_scores` with the dynamic type of the argument made
explicit: when `self.normalized` holds the body evaluates
`ecg_signal.reshape(-1, 1)`, which on a plain Python list raises
AttributeError; on a numpy array, and always when the flag is off, the
method returns its usual value. -/
noncomputable def compute_sqi_scores_dyn (F : SqiFns) (self : EcgQc)
    (obj : PyObj) : Except PyError (List (List ℝ)) :=
  if self.normalized then
    match obj with
    | PyObj.pylist _ => Except.error PyError.attributeError
    | PyObj.ndarray _ => Except.ok (compute_sqi_scores F self obj.samples)
  else
    Except.ok (compute_sqi_scores F self obj.samples)

/-- A concrete indicator bundle for witnesses: every score is 0. -/
def zeroSqi : SqiFns :=
  SqiFns.mk (fun _ _ => 0) (fun _ _ => 0) (fun _ => 0)
    (fun _ => 0) (fun _ _ => 0) (fun _ _ => 0)

/-- A concrete classifier for witnesses: it always predicts label 1. -/
def constModel : Model := Model.mk (fun _ => 1)

/-- A concrete evaluator: default sampling frequency, normalization off. -/
def sampleQc : EcgQc := EcgQc.mk constModel 1000 false

/-- A concrete evaluator with normalization on. -/
def sampleQcNorm : EcgQc := EcgQc.mk constModel 1000 true

/-- Unfolding equation for `mean`. -/
lemma mean_def (m : Signal) : mean m = m.sum / (m.length : ℝ) := rfl

/-- Unfolding equation for `pvariance`. -/
lemma pvariance_def (m : Signal) :
    pvariance m = (m.map (fun x => (x - mean m) ^ 2)).sum / (m.length : ℝ) := rfl

/-- A segment is nonempty whenever its population variance is nonzero. -/
lemma ne_nil_of_pvariance_ne_zero (l : Signal) (hv : pvariance l ≠ 0) :
    l ≠ [] := by
  intro hl
  apply hv
  subst hl
  simp [pvariance]

/-- Population variance is a mean of squares, hence nonnegative. -/
lemma pvariance_nonneg (l : Signal) : 0 ≤ pvariance l := by
  unfold pvariance
  apply div_nonneg
  · apply List.sum_nonneg
    intro x hx
    obtain ⟨y, _, rfl⟩ := List.mem_map.mp hx
    exact sq_nonneg _
  · exact Nat.cast_nonneg _

/-- For a nonempty segment the sum is length times the mean. -/
lemma sum_eq_length_mul_mean (l : Signal) (hl : l ≠ []) :
    l.sum = (l.length : ℝ) * mean l := by
  have hn : (l.length : ℝ) ≠ 0 :=
    Nat.cast_ne_zero.mpr (fun hh => hl (List.length_eq_zero.mp hh))
  unfold mean
  rw [mul_comm, div_mul_cancel₀ _ hn]

/-- Summing the shifted-and-scaled samples factors through sum and length. -/
lemma sum_map_sub_div (l : List ℝ) (c d : ℝ) :
    (l.map (fun x => (x - c) / d)).sum = (l.sum - (l.length : ℝ) * c) / d := by
  induction l with
  | nil => simp
  | cons a t ih =>
    simp only [List.map_cons, List.sum_cons, List.length_cons, ih]
    push_cast
    ring

/-- Summing squares of shifted-and-scaled samples factors out the square
of the scale. -/
lemma sum_map_sub_div_sq (l : List ℝ) (c d : ℝ) :
    (l.map (fun x => ((x - c) / d) ^ 2)).sum =
      (l.map (fun x => (x - c) ^ 2)).sum / d ^ 2 := by
  induction l with
  | nil => simp
  | cons a t ih =>
    simp only [List.map_cons, List.sum_cons, ih]
    ring

/-- On a segment of nonzero variance, the scaler divides by the square
root of the variance. -/
lemma standardScale_eq (l : Signal) (hv : pvariance l ≠ 0) :
    standardScale l = l.map (fun x => (x - mean l) / Real.sqrt (pvariance l)) := by
  unfold standardScale
  rw [if_neg hv]

/-- The z-scored copy of a non-constant segment has mean zero. -/
lemma mean_standardScale (l : Signal) (hv : pvariance l ≠ 0) :
    mean (standardScale l) = 0 := by
  have hl : l ≠ [] := ne_nil_of_pvariance_ne_zero l hv
  rw [standardScale_eq l hv, mean_def, sum_map_sub_div,
    sum_eq_length_mul_mean l hl, sub_self, zero_div, zero_div]

/-- The z-scored copy of a non-constant segment has population variance
one. -/
lemma pvariance_standardScale (l : Signal) (hv : pvariance l ≠ 0) :
    pvariance (standardScale l) = 1 := by
  have hl : l ≠ [] := ne_nil_of_pvariance_ne_zero l hv
  have hn : (l.length : ℝ) ≠ 0 :=
    Nat.cast_ne_zero.mpr (fun hh => hl (List.length_eq_zero.mp hh))
  have hvpos : 0 < pvariance l :=
    lt_of_le_of_ne (pvariance_nonneg l) (Ne.symm hv)
  have hs : Real.sqrt (pvariance l) ^ 2 = pvariance l := Real.sq_sqrt hvpos.le
  have hm := mean_standardScale l hv
  have hS : (l.map (fun x => (x - mean l) ^ 2)).sum =
      pvariance l * (l.length : ℝ) := by
    simp only [pvariance]
    rw [div_mul_cancel₀ _ hn]
  rw [pvariance_def (standardScale l), hm]
  simp only [sub_zero]
  rw [standardScale_eq l hv, List.map_map, List.length_map]
  have hcomp : (fun y => y ^ 2) ∘
      (fun x => (x - mean l) / Real.sqrt (pvariance l)) =
      fun x => ((x - mean l) / Real.sqrt (pvariance l)) ^ 2 := rfl
  rw [hcomp, sum_map_sub_div_sq, hs, hS, mul_div_cancel_left₀ _ hv]
  exact div_self hn

/-- C1: for every segment, `compute_sqi_scores` assembles exactly six real
scores in the fixed order q, c, s, k, p, bas, each position holding the
value of the corresponding indicator function applied to the (possibly
normalized) input. -/
theorem C1_fixed_order (F : SqiFns) (self : EcgQc) (sig : Signal) :
    ∃ w : List ℝ,
      compute_sqi_scores F self sig = [w] ∧ w.length = 6 ∧
      w[0]? = some (F.qsqi (normInput self sig) self.sampling_frequency) ∧
      w[1]? = some (F.csqi (normInput self sig) self.sampling_frequency) ∧
      w[2]? = some (F.ssqi (normInput self sig)) ∧
      w[3]? = some (F.ksqi (normInput self sig)) ∧
      w[4]? = some (F.psqi (normInput self sig) self.sampling_frequency) ∧
      w[5]? = some (F.bassqi (normInput self sig) self.sampling_frequency) :=
  ⟨_, rfl, rfl, rfl, rfl, rfl, rfl, rfl, rfl⟩

/-- C2: `get_signal_quality` is exactly `predict_quality` applied to the
result of `compute_sqi_scores` on the same segment, and its stateful form
adds no other behavior: evaluator and load environment are untouched. -/
theorem C2_composition (F : SqiFns) (self : EcgQc) (sig : Signal)
    (env : LoadEnv) :
    get_signal_quality F self sig =
      predict_quality self (compute_sqi_scores F self sig) ∧
    (get_signal_qualityM F self sig env).2.1 = self ∧
    (get_signal_qualityM F self sig env).2.2 = env :=
  ⟨rfl, rfl, rfl⟩

/-- C3 counterexample: on the constant one-sample segment, shorter than
any positive minimum length, `compute_sqi_scores` returns a score vector
instead of failing; no InvalidSegment error path exists in the method. -/
theorem C3_counterexample :
    compute_sqi_scores_dyn zeroSqi sampleQc (PyObj.ndarray [5]) =
      Except.ok [[0, 0, 0, 0, 0, 0]] := rfl

/-- C3 amended: `compute_sqi_scores` performs no length or constancy
validation; every array segment, however short or constant, yields a
singleton score matrix rather than an error. -/
theorem C3_no_validation (F : SqiFns) (self : EcgQc) (l : List ℝ) :
    ∃ v, compute_sqi_scores_dyn F self (PyObj.ndarray l) = Except.ok v ∧
      v.length = 1 := by
  refine ⟨compute_sqi_scores F self l, ?_, rfl⟩
  cases h : self.normalized <;>
    simp [compute_sqi_scores_dyn, h, PyObj.samples]

/-- C4: constructing the evaluator performs exactly one artifact load, the
construction result mirrors the load result (a load failure fails the
construction), and neither prediction nor end-to-end evaluation touches
the load environment. -/
theorem C4_load_once (env : LoadEnv) (fs : Nat) (normalized : Bool)
    (self : EcgQc) (v : List (List ℝ)) (F : SqiFns) (sig : Signal)
    (env2 : LoadEnv) :
    (EcgQc.init env fs normalized).2.loadCalls = env.loadCalls + 1 ∧
    (EcgQc.init env fs normalized).1 =
      env.artifact.map (fun m => EcgQc.mk m fs normalized) ∧
    (predict_qualityM self v env2).2.2 = env2 ∧
    (get_signal_qualityM F self sig env2).2.2 = env2 :=
  ⟨rfl, rfl, rfl, rfl⟩

/-- C5: calling `compute_sqi_scores` a second time, on the evaluator state
and environment returned by the first call, yields the identical score
vector. -/
theorem C5_idempotent (F : SqiFns) (self : EcgQc) (sig : Signal)
    (env : LoadEnv) :
    (compute_sqi_scoresM F (compute_sqi_scoresM F self sig env).2.1 sig
        (compute_sqi_scoresM F self sig env).2.2).1 =
      (compute_sqi_scoresM F self sig env).1 :=
  rfl

/-- C6: with the normalized flag on, `compute_sqi_scores` computes on the
z-scored copy of a non-constant input, a fresh segment of mean zero and
population variance one; with the flag off, the raw segment reaches all
six indicator functions unchanged. -/
theorem C6_normalization (F : SqiFns) (self : EcgQc) (sig : Signal)
    (hv : pvariance sig ≠ 0) :
    (self.normalized = true →
      compute_sqi_scores F self sig =
        compute_sqi_scores F
          (EcgQc.mk self.model self.sampling_frequency false)
          (standardScale sig) ∧
      mean (standardScale sig) = 0 ∧
      pvariance (standardScale sig) = 1) ∧
    (self.normalized = false →
      compute_sqi_scores F self sig =
        [[F.qsqi sig self.sampling_frequency,
          F.csqi sig self.sampling_frequency,
          F.ssqi sig, F.ksqi sig,
          F.psqi sig self.sampling_frequency,
          F.bassqi sig self.sampling_frequency]]) := by
  constructor
  · intro h
    refine ⟨?_, mean_standardScale sig hv, pvariance_standardScale sig hv⟩
    simp [compute_sqi_scores, h]
  · intro h
    simp [compute_sqi_scores, h]

/-- C6 witness: the segment with samples 0 and 2 is non-constant, and its
z-scored copy has mean zero and population variance one. -/
theorem C6_witness :
    mean (standardScale [0, 2]) = 0 ∧
    pvariance (standardScale [0, 2]) = 1 :=
  ((C6_normalization zeroSqi sampleQcNorm [0, 2]
      (by norm_num [pvariance, mean])).1 rfl).2

/-- C7: no method changes the evaluator: after any of the three calls the
state, hence each of the fields model, sampling_frequency and normalized,
equals its value at construction. -/
theorem C7_stateless (F : SqiFns) (self : EcgQc) (sig : Signal)
    (v : List (List ℝ)) (env : LoadEnv) :
    (compute_sqi_scoresM F self sig env).2.1 = self ∧
    (predict_qualityM self v env).2.1 = self ∧
    (get_signal_qualityM F self sig env).2.1 = self ∧
    (compute_sqi_scoresM F self sig env).2.1.model = self.model ∧
    (compute_sqi_scoresM F self sig env).2.1.sampling_frequency =
      self.sampling_frequency ∧
    (compute_sqi_scoresM F self sig env).2.1.normalized = self.normalized :=
  ⟨rfl, rfl, rfl, rfl, rfl, rfl⟩

/-- C8: `predict_quality` returns exactly the classifier's integer
prediction on the score matrix, and when the classifier honors the binary
label contract of the spec the returned label lies in 0, 1. -/
theorem C8_binary_label (self : EcgQc) (v : List (List ℝ))
    (h : self.model.predict v = 0 ∨ self.model.predict v = 1) :
    predict_quality self v = self.model.predict v ∧
    (predict_quality self v = 0 ∨ predict_quality self v = 1) :=
  ⟨rfl, h⟩

/-- C8 witness: the constant classifier predicts 1 on the zero score
matrix, and `predict_quality` forwards that binary label. -/
theorem C8_witness :
    predict_quality sampleQc [[0, 0, 0, 0, 0, 0]] =
      sampleQc.model.predict [[0, 0, 0, 0, 0, 0]] ∧
    (predict_quality sampleQc [[0, 0, 0, 0, 0, 0]] = 0 ∨
      predict_quality sampleQc [[0, 0, 0, 0, 0, 0]] = 1) :=
  C8_binary_label sampleQc [[0, 0, 0, 0, 0, 0]] (Or.inr rfl)

/-- C9: the value returned by `compute_sqi_scores` is a singleton outer
list whose only element holds the six scores, and `get_signal_quality`
feeds exactly this nested value to `predict_quality`. -/
theorem C9_nested_shape (F : SqiFns) (self : EcgQc) (sig : Signal) :
    (compute_sqi_scores F self sig).length = 1 ∧
    ((compute_sqi_scores F self sig).headD []).length = 6 ∧
    get_signal_quality F self sig =
      predict_quality self (compute_sqi_scores F self sig) :=
  ⟨rfl, rfl, rfl⟩

/-- C10: with the normalized flag on, `compute_sqi_scores` evaluates
reshape on its argument, so a plain Python list fails with AttributeError;
with the flag off the same list input computes scores normally. -/
theorem C10_reshape_on_list (F : SqiFns) (m : Model) (fs : Nat)
    (l : List ℝ) :
    compute_sqi_scores_dyn F (EcgQc.mk m fs true) (PyObj.pylist l) =
      Except.error PyError.attributeError ∧
    compute_sqi_scores_dyn F (EcgQc.mk m fs false) (PyObj.pylist l) =
      Except.ok (compute_sqi_scores F (EcgQc.mk m fs false) l) :=
  ⟨rfl, rfl⟩

end EcgQcModel
